import Mathlib

/-!
Shallow embedding of the AskHire chat application (src/main.py) and proofs
about its suggestion generator and conversation orchestrator.

The suggestion generator (`_extract_keywords`, `generate_suggestions`) is a
pure function and is embedded directly.  The orchestrator (`Me.chat`) talks
to a remote LLM; we model the remote side as a finite script of responses
(each either a reply or a raised exception) and instrument the turn with a
log recording the number of remote calls, the tools executed, and the
follow-up messages sent back to the model.
-/

namespace AskHire

/-! ## Tokenization, modelling `re.findall(r"\b[a-zA-Z]{4,}\b", text)` -/

/-- ASCII uppercase letter test, via code points (the regex class `A-Z`). -/
def isAsciiUpper (c : Char) : Bool := 65 ≤ c.toNat && c.toNat ≤ 90

/-- ASCII lowercase letter test, via code points (the regex class `a-z`). -/
def isAsciiLower (c : Char) : Bool := 97 ≤ c.toNat && c.toNat ≤ 122

/-- The regex character class `[a-zA-Z]`. -/
def isAsciiAlpha (c : Char) : Bool := isAsciiUpper c || isAsciiLower c

/-- ASCII digit test, via code points. -/
def isAsciiDigit (c : Char) : Bool := 48 ≤ c.toNat && c.toNat ≤ 57

/-- Python regex word character (`\w` over ASCII): letter, digit or underscore.
Word boundaries `\b` in the source regex are transitions between these and
everything else. -/
def isWordChar (c : Char) : Bool := isAsciiAlpha c || isAsciiDigit c || c.toNat = 95

/-- Python `str.lower()` restricted to ASCII: shifts `A`-`Z` down by 32,
leaves everything else unchanged.  The tokens it is applied to consist of
ASCII letters only, so this matches Python on the actual inputs. -/
def pyLower (c : Char) : Char :=
  if 65 ≤ c.toNat && c.toNat ≤ 90 then Char.ofNat (c.toNat + 32) else c

/-- The matches of `\b[a-zA-Z]{4,}\b` lowered, as in
`[w.lower() for w in re.findall(r"\b[a-zA-Z]{4,}\b", text)]`: the maximal
word-character runs of the text that consist purely of letters and have
length at least 4, each lower-cased.  (A run containing a digit or an
underscore has no interior word boundary, so the regex cannot match any part
of it; a shorter run fails the `{4,}` bound.) -/
def tokens (text : String) : List String :=
  ((List.splitOnP (fun c => !isWordChar c) text.data).filter
      (fun r => 4 ≤ r.length && r.all isAsciiAlpha)).map
    (fun r => String.mk (r.map pyLower))

/-! ## `_STOPWORDS` and `_extract_keywords` (src/main.py lines 37-53) -/

/-- The fixed stopword set `_STOPWORDS`. -/
def _STOPWORDS : List String :=
  ["the", "and", "for", "with", "that", "this", "from", "about", "have",
   "your", "you", "are", "was", "but", "not", "can", "will", "they", "their"]

/-- One step of the counting loop `freq[w] = freq.get(w, 0) + 1` on an
insertion-ordered association list (Python dicts preserve insertion order). -/
def bump : List (String × Nat) → String → List (String × Nat)
  | [], w => [(w, 1)]
  | (k, v) :: rest, w =>
    if k = w then (k, v + 1) :: rest else (k, v) :: bump rest w

/-- The `freq` dictionary built by the loop in `_extract_keywords`:
stopwords are skipped, every other token is counted. -/
def buildFreq (ws : List String) : List (String × Nat) :=
  ws.foldl (fun f w => if w ∈ _STOPWORDS then f else bump f w) []

/-- The sort key `lambda x: (-x[1], x[0])` as an order relation: higher
count first, and on equal counts the alphabetically earlier word first. -/
def rankRel (a b : String × Nat) : Prop :=
  b.2 < a.2 ∨ (a.2 = b.2 ∧ a.1 ≤ b.1)

instance : DecidableRel rankRel := fun a b =>
  decidable_of_iff (b.2 < a.2 ∨ (a.2 = b.2 ∧ a.1 ≤ b.1)) Iff.rfl

instance : IsTotal (String × Nat) rankRel where
  total a b := by
    unfold rankRel
    rcases Nat.lt_trichotomy a.2 b.2 with h | h | h
    · exact Or.inr (Or.inl h)
    · rcases le_total a.1 b.1 with hs | hs
      · exact Or.inl (Or.inr ⟨h, hs⟩)
      · exact Or.inr (Or.inr ⟨h.symm, hs⟩)
    · exact Or.inl (Or.inl h)

instance : IsTrans (String × Nat) rankRel where
  trans a b c h1 h2 := by
    unfold rankRel at *
    rcases h1 with h1 | ⟨h1e, h1s⟩ <;> rcases h2 with h2 | ⟨h2e, h2s⟩
    · exact Or.inl (by omega)
    · exact Or.inl (by omega)
    · exact Or.inl (by omega)
    · exact Or.inr ⟨by omega, le_trans h1s h2s⟩

/-- `sorted(freq.items(), key=lambda x: (-x[1], x[0]))` applied to the
frequency table of the tokens of `text`.  Since `rankRel` is total,
transitive and antisymmetric (the keys of the table are distinct), the
sorted sequence is unique, so a stable insertion sort models Python's
stable `sorted` exactly. -/
def rankedItems (text : String) : List (String × Nat) :=
  List.insertionSort rankRel (buildFreq (tokens text))

/-- `_extract_keywords(text, top_n)`.  The Python parameter may be `None` or
a string; `if not text: return []` treats `None` and `""` alike. -/
def _extract_keywords (text : Option String) (top_n : Nat) : List String :=
  match text with
  | none => []
  | some t =>
    if t = "" then []
    else ((rankedItems t).take top_n).map Prod.fst

/-! ## `generate_suggestions` (src/main.py lines 55-83) -/

/-- The question template `f"Can you tell me more about {k}?"`. -/
def questionFor (k : String) : String :=
  "Can you tell me more about " ++ k ++ "?"

/-- The fixed `generic` prompt list. -/
def generic : List String :=
  ["How did you achieve that?",
   "What tools or technologies were used?",
   "Can you share a brief example or outcome?"]

/-- The `for k in kws` loop: append a question per keyword, breaking as soon
as `len(suggestions) >= max_suggestions` (checked after each append). -/
def suggestLoop (maxS : Nat) : List String → List String → List String
  | [], acc => acc
  | k :: ks, acc =>
    let acc2 := acc ++ [questionFor k]
    if maxS ≤ acc2.length then acc2 else suggestLoop maxS ks acc2

/-- The `while len(suggestions) < max_suggestions and i < len(generic)`
padding loop, walking the generic prompts in order. -/
def genericPad (maxS : Nat) : List String → List String → List String
  | acc, [] => acc
  | acc, g :: gs =>
    if acc.length < maxS then genericPad maxS (acc ++ [g]) gs else acc

/-- The tail of `generate_suggestions` once the keyword list has been
chosen: question templates then generic padding. -/
def suggestionsFrom (kws : List String) (maxS : Nat) : List String :=
  genericPad maxS (suggestLoop maxS kws []) generic

/-- `generate_suggestions(user_message, response_text, max_suggestions)`:
keywords come from the user message, falling back to the response text when
that yields none (`if not kws`). -/
def generate_suggestions (user_message response_text : String)
    (max_suggestions : Nat) : List String :=
  suggestionsFrom
    (if _extract_keywords (some user_message) max_suggestions = [] then
       _extract_keywords (some response_text) max_suggestions
     else _extract_keywords (some user_message) max_suggestions)
    max_suggestions

/-- The distinct countable keyword candidates of a text: the keys of the
frequency table, i.e. the distinct non-stopword tokens. -/
def candidateCount (text : String) : Nat :=
  (buildFreq (tokens text)).length

/-! ## The conversation orchestrator `Me.chat` (src/main.py lines 199-258)

The Gemini session is modelled by a finite script of events, one per
`send_message` call: either the model replies with a response (a list of
parts, each plain text or a function call), or the call raises.  Tool
functions are total Lean functions returning `Except`: `Except.error`
models a raised Python exception, whose message is the `str(e)` text. -/

/-- A tool call request produced by the model: `fc.name` and `fc.args`
(the argument mapping, as keyword/value pairs). -/
structure FunctionCall where
  name : String
  args : List (String × String)
deriving DecidableEq, Repr

/-- One part of a model response: plain text or a function call. -/
inductive ResponsePart where
  | text (s : String)
  | functionCall (fc : FunctionCall)
deriving DecidableEq, Repr

/-- A model response, `response.parts`. -/
structure ModelResponse where
  parts : List ResponsePart
deriving DecidableEq, Repr

/-- One scripted outcome of a `send_message` call. -/
inductive ScriptEvent where
  | reply (r : ModelResponse)
  | raiseErr (msg : String)
deriving DecidableEq, Repr

/-- The dictionaries `{"status": ..., "message": ...}` built in the tool
loop and returned by the tool functions. -/
structure ToolResult where
  status : String
  message : String
deriving DecidableEq, Repr

/-- A tool callable: applied to the supplied keyword arguments, it either
returns a result dict or raises (`Except.error` carries `str(e)`). -/
def ToolFn := List (String × String) → Except String ToolResult

/-- The `self.tools` dictionary: names mapped to callables. -/
def Registry := List (String × ToolFn)

/-- `self.tools.get(function_name)`. -/
def lookupTool (tools : Registry) (name : String) : Option ToolFn :=
  (tools.find? (fun t => t.1 == name)).map (fun t => t.2)

/-- Keyword-argument lookup for the `tool_function(**args)` call. -/
def lookupArg (args : List (String × String)) (k : String) : Option String :=
  (args.find? (fun a => a.1 == k)).map (fun a => a.2)

/-- `record_user_details(email, name="Name not provided", notes="Not provided")`
as invoked with `**args`: a missing `email` raises a `TypeError`, otherwise
the call succeeds with the fixed success dict.  (The push notification is a
fire-and-forget side effect with no influence on the result.) -/
def record_user_details (args : List (String × String)) : Except String ToolResult :=
  match lookupArg args "email" with
  | none =>
    Except.error
      "record_user_details() missing 1 required positional argument: 'email'"
  | some _ =>
    let name := (lookupArg args "name").getD "Name not provided"
    Except.ok ⟨"success", "Details for " ++ name ++ " recorded."⟩

/-- `record_unknown_question(question)` as invoked with `**args`: a missing
`question` raises, otherwise the fixed success dict is returned. -/
def record_unknown_question (args : List (String × String)) : Except String ToolResult :=
  match lookupArg args "question" with
  | none =>
    Except.error
      "record_unknown_question() missing 1 required positional argument: 'question'"
  | some _ => Except.ok ⟨"success", "Question has been recorded for review."⟩

/-- The registry built in `Me.__init__`. -/
def defaultTools : Registry :=
  [("record_user_details", record_user_details),
   ("record_unknown_question", record_unknown_question)]

/-- `any(part.function_call for part in response.parts)` (which also implies
`response.parts` is non-empty). -/
def hasFunctionCall (r : ModelResponse) : Bool :=
  r.parts.any (fun p => match p with
    | ResponsePart.functionCall _ => true
    | ResponsePart.text _ => false)

/-- `[part.function_call for part in response.parts if part.function_call]`. -/
def functionCallsOf (r : ModelResponse) : List FunctionCall :=
  r.parts.filterMap (fun p => match p with
    | ResponsePart.functionCall fc => some fc
    | ResponsePart.text _ => none)

/-- The dispatch of one function call inside the loop: unknown names give
the "Unknown function" error dict, a raising tool gives the "Error in"
error dict, and otherwise the tool result is passed through. -/
def execCall (tools : Registry) (fc : FunctionCall) : ToolResult :=
  match lookupTool tools fc.name with
  | none => ⟨"error", "Unknown function: " ++ fc.name⟩
  | some f =>
    match f fc.args with
    | Except.ok res => res
    | Except.error e => ⟨"error", "Error in " ++ fc.name ++ ": " ++ e⟩

/-- Instrumentation of one chat turn: how many `send_message` calls were
made, which registered tools were actually invoked, and the function
response batches sent back to the model (each tagged with its name). -/
structure TurnLog where
  sends : Nat
  executed : List String
  followUps : List (List (String × ToolResult))
deriving DecidableEq, Repr

/-- `response.text`: the concatenated text parts, raising when the response
has no parts or contains a non-text part. -/
def responseText (r : ModelResponse) : Except String String :=
  if r.parts ≠ [] ∧ r.parts.all (fun p => match p with
      | ResponsePart.text _ => true
      | ResponsePart.functionCall _ => false) then
    Except.ok (String.join (r.parts.filterMap (fun p => match p with
      | ResponsePart.text s => some s
      | ResponsePart.functionCall _ => none)))
  else Except.error "response has no text"

/-- The log after one loop body: the tagged results of the requested calls
are recorded as a follow-up batch, and the registered tools among them as
executed. -/
def followUpLog (tools : Registry) (r : ModelResponse) (log : TurnLog) :
    TurnLog :=
  ⟨log.sends,
   log.executed ++
     ((functionCallsOf r).filter
        (fun fc => (lookupTool tools fc.name).isSome)).map FunctionCall.name,
   log.followUps ++
     [(functionCallsOf r).map (fun fc => (fc.name, execCall tools fc))]⟩

/-- Record one more `send_message` call. -/
def bumpSends (log : TurnLog) : TurnLog :=
  ⟨log.sends + 1, log.executed, log.followUps⟩

/-- The `while response.parts and any(part.function_call ...)` loop: execute
every requested call, send the batch of results back, and continue with the
next scripted reply.  An exhausted script and a scripted raise both model a
raised exception escaping `send_message`. -/
def toolLoop (tools : Registry) :
    List ScriptEvent → ModelResponse → TurnLog →
    Except String ModelResponse × TurnLog
  | [], r, log =>
    if hasFunctionCall r then
      (Except.error "no reply to tool results", followUpLog tools r log)
    else (Except.ok r, log)
  | ScriptEvent.raiseErr e :: _, r, log =>
    if hasFunctionCall r then
      (Except.error e, bumpSends (followUpLog tools r log))
    else (Except.ok r, log)
  | ScriptEvent.reply r2 :: rest, r, log =>
    if hasFunctionCall r then
      toolLoop tools rest r2 (bumpSends (followUpLog tools r log))
    else (Except.ok r, log)

/-- The body of the `try` block: the initial `send_message(user_message)`
consumes the first script event, then the tool loop runs. -/
def chatCore (tools : Registry) (script : List ScriptEvent) :
    Except String ModelResponse × TurnLog :=
  match script with
  | [] => (Except.error "no response", ⟨1, [], []⟩)
  | ScriptEvent.raiseErr e :: _ => (Except.error e, ⟨1, [], []⟩)
  | ScriptEvent.reply r :: rest => toolLoop tools rest r ⟨1, [], []⟩

/-- Whether the turn hits an exception anywhere in the remote interaction:
a raised `send_message` (initial or follow-up) or a failing final
`response.text` read. -/
def turnFails (tools : Registry) (script : List ScriptEvent) : Bool :=
  match chatCore tools script with
  | (Except.error _, _) => true
  | (Except.ok r, _) => !(responseText r).isOk

/-- One turn of conversation history as the UI stores it. -/
structure ChatTurn where
  role : String
  parts : List String
deriving DecidableEq, Repr

/-- The fields of `Me` relevant to `chat`: whether a model is configured
(`self.model`, `None` when the library or key is missing) and the tool
registry. -/
structure Me where
  model : Option Unit
  tools : Registry

/-- The degraded-mode message returned when no model is configured. -/
def notConfiguredMsg : String :=
  "The AI model is not configured. Please check your API key."

/-- The generic apology returned when the `try` block raises. -/
def apologyMsg : String :=
  "Sorry, I encountered an error. Please try again."

/-- `Me.chat(user_message, chat_history)` against a scripted model, paired
with the turn log.  With no model configured it returns the fixed message
without consuming any script event (no remote call). -/
def Me.chat (me : Me) (user_message : String) (chat_history : List ChatTurn)
    (script : List ScriptEvent) : String × TurnLog :=
  if me.model.isNone then (notConfiguredMsg, ⟨0, [], []⟩)
  else
    match chatCore me.tools script with
    | (Except.error _, log) => (apologyMsg, log)
    | (Except.ok r, log) =>
      match responseText r with
      | Except.ok t => (t, log)
      | Except.error _ => (apologyMsg, log)

/-! ## Helper lemmas about the tool-call loop -/

theorem join_singleton (t : String) : String.join [t] = t := rfl

/-- A turn whose script is one single-call reply followed by one text-only
reply: the call is dispatched, its tagged result is sent back as the only
follow-up, and the final text is returned. -/
theorem chat_single_call (tools : Registry) (fc : FunctionCall)
    (t msg : String) (hist : List ChatTurn) :
    (Me.mk (some ()) tools).chat msg hist
        [ScriptEvent.reply ⟨[ResponsePart.functionCall fc]⟩,
         ScriptEvent.reply ⟨[ResponsePart.text t]⟩] =
      (t, ⟨2,
        if (lookupTool tools fc.name).isSome then [fc.name] else [],
        [[(fc.name, execCall tools fc)]]⟩) := by
  cases h : lookupTool tools fc.name with
  | none =>
    simp [Me.chat, chatCore, toolLoop, hasFunctionCall, functionCallsOf,
      followUpLog, bumpSends, responseText, join_singleton, h]
  | some f =>
    simp [Me.chat, chatCore, toolLoop, hasFunctionCall, functionCallsOf,
      followUpLog, bumpSends, responseText, join_singleton, h]

/-- The loop only ever returns a response that has no function-call part. -/
theorem toolLoop_ok_no_call (tools : Registry) :
    ∀ (script : List ScriptEvent) (r : ModelResponse) (log : TurnLog)
      (r2 : ModelResponse) (log2 : TurnLog),
      toolLoop tools script r log = (Except.ok r2, log2) →
      hasFunctionCall r2 = false := by
  intro script
  induction script with
  | nil =>
    intro r log r2 log2 h
    by_cases hc : hasFunctionCall r
    · simp [toolLoop, hc] at h
    · simp [toolLoop, hc] at h
      simp [← h.1, hc]
  | cons e rest ih =>
    intro r log r2 log2 h
    by_cases hc : hasFunctionCall r
    · cases e with
      | raiseErr m => simp [toolLoop, hc] at h
      | reply r3 =>
        simp only [toolLoop, hc, if_true] at h
        exact ih r3 _ r2 log2 h
    · cases e with
      | raiseErr m =>
        simp [toolLoop, hc] at h
        simp [← h.1, hc]
      | reply r3 =>
        simp [toolLoop, hc] at h
        simp [← h.1, hc]

/-- A response with no function-call part exits the loop at once,
unchanged. -/
theorem toolLoop_exit (tools : Registry) (script : List ScriptEvent)
    (r : ModelResponse) (log : TurnLog) (h : hasFunctionCall r = false) :
    toolLoop tools script r log = (Except.ok r, log) := by
  cases script with
  | nil => simp [toolLoop, h]
  | cons e rest =>
    cases e with
    | raiseErr m => simp [toolLoop, h]
    | reply r2 => simp [toolLoop, h]

/-! ## Claim theorems: the orchestrator -/

/-- C3: with no model configured, `chat` returns exactly the fixed
degraded-service message and performs no remote call (zero sends, no tool
executed, no follow-up), for every user message, history and scripted
remote behaviour. -/
theorem C3_unconfigured_chat (tools : Registry) (msg : String)
    (hist : List ChatTurn) (script : List ScriptEvent) :
    (Me.mk none tools).chat msg hist script =
      ("The AI model is not configured. Please check your API key.",
       ⟨0, [], []⟩) := rfl

/-- C4: a tool-call request whose name is not in the registry is answered
by the result `{status: error, message: "Unknown function: <name>"}`, that
result is sent back to the model as the follow-up, and the turn still
completes with the final text rather than raising. -/
theorem C4_unknown_function (tools : Registry) (name : String)
    (args : List (String × String)) (t msg : String) (hist : List ChatTurn)
    (h : lookupTool tools name = none) :
    execCall tools ⟨name, args⟩ =
        ⟨"error", "Unknown function: " ++ name⟩ ∧
    (Me.mk (some ()) tools).chat msg hist
        [ScriptEvent.reply ⟨[ResponsePart.functionCall ⟨name, args⟩]⟩,
         ScriptEvent.reply ⟨[ResponsePart.text t]⟩] =
      (t, ⟨2, [], [[(name, ⟨"error", "Unknown function: " ++ name⟩)]]⟩) := by
  have hexec : execCall tools ⟨name, args⟩ =
      ⟨"error", "Unknown function: " ++ name⟩ := by
    simp [execCall, h]
  refine ⟨hexec, ?_⟩
  have := chat_single_call tools ⟨name, args⟩ t msg hist
  rw [this, h, hexec]
  rfl

/-- C4 witness: the default registry has no tool named "does_not_exist". -/
theorem C4_unknown_function_witness :
    lookupTool defaultTools "does_not_exist" = none ∧
    (execCall defaultTools ⟨"does_not_exist", []⟩ =
        ⟨"error", "Unknown function: " ++ "does_not_exist"⟩ ∧
    (Me.mk (some ()) defaultTools).chat "hi" []
        [ScriptEvent.reply
           ⟨[ResponsePart.functionCall ⟨"does_not_exist", []⟩]⟩,
         ScriptEvent.reply ⟨[ResponsePart.text "done"]⟩] =
      ("done", ⟨2, [],
        [[("does_not_exist",
           ⟨"error", "Unknown function: " ++ "does_not_exist"⟩)]]⟩)) :=
  ⟨rfl, C4_unknown_function defaultTools "does_not_exist" [] "done" "hi" [] rfl⟩

/-- C5: a registered tool whose invocation raises is captured as the result
`{status: error, message: "Error in <name>: <details>"}`; the exception does
not propagate and the turn completes with the final text. -/
theorem C5_tool_exception (tools : Registry) (name : String)
    (args : List (String × String)) (f : ToolFn) (e t msg : String)
    (hist : List ChatTurn) (h1 : lookupTool tools name = some f)
    (h2 : f args = Except.error e) :
    execCall tools ⟨name, args⟩ =
        ⟨"error", "Error in " ++ name ++ ": " ++ e⟩ ∧
    (Me.mk (some ()) tools).chat msg hist
        [ScriptEvent.reply ⟨[ResponsePart.functionCall ⟨name, args⟩]⟩,
         ScriptEvent.reply ⟨[ResponsePart.text t]⟩] =
      (t, ⟨2, [name],
        [[(name, ⟨"error", "Error in " ++ name ++ ": " ++ e⟩)]]⟩) := by
  have hexec : execCall tools ⟨name, args⟩ =
      ⟨"error", "Error in " ++ name ++ ": " ++ e⟩ := by
    simp [execCall, h1, h2]
  refine ⟨hexec, ?_⟩
  have := chat_single_call tools ⟨name, args⟩ t msg hist
  rw [this, h1, hexec]
  rfl

/-- C5 witness: calling `record_user_details` without the required `email`
argument raises, and the turn still completes. -/
theorem C5_tool_exception_witness :
    lookupTool defaultTools "record_user_details" = some record_user_details ∧
    record_user_details [] = Except.error
      "record_user_details() missing 1 required positional argument: 'email'" ∧
    (Me.mk (some ()) defaultTools).chat "hi" []
        [ScriptEvent.reply
           ⟨[ResponsePart.functionCall ⟨"record_user_details", []⟩]⟩,
         ScriptEvent.reply ⟨[ResponsePart.text "done"]⟩] =
      ("done", ⟨2, ["record_user_details"],
        [[("record_user_details",
           ⟨"error", "Error in " ++ "record_user_details" ++ ": " ++
             "record_user_details() missing 1 required positional argument: 'email'"⟩)]]⟩) :=
  ⟨rfl, rfl,
   (C5_tool_exception defaultTools "record_user_details" []
      record_user_details
      "record_user_details() missing 1 required positional argument: 'email'"
      "done" "hi" [] rfl rfl).2⟩

/-- C6: with a scripted model whose first reply holds exactly one tool call
to a registered tool and whose second reply is text-only, `chat` executes
that tool exactly once, sends exactly one follow-up message containing its
tagged result, and returns the final text; in general the loop returns a
response exactly when that response has no tool-call part. -/
theorem C6_loop_termination :
    (∀ (tools : Registry) (fc : FunctionCall) (f : ToolFn) (t msg : String)
        (hist : List ChatTurn), lookupTool tools fc.name = some f →
        (Me.mk (some ()) tools).chat msg hist
            [ScriptEvent.reply ⟨[ResponsePart.functionCall fc]⟩,
             ScriptEvent.reply ⟨[ResponsePart.text t]⟩] =
          (t, ⟨2, [fc.name], [[(fc.name, execCall tools fc)]]⟩)) ∧
    (∀ (tools : Registry) (script : List ScriptEvent) (r : ModelResponse)
        (log : TurnLog) (r2 : ModelResponse) (log2 : TurnLog),
        toolLoop tools script r log = (Except.ok r2, log2) →
        hasFunctionCall r2 = false) ∧
    (∀ (tools : Registry) (script : List ScriptEvent) (r : ModelResponse)
        (log : TurnLog), hasFunctionCall r = false →
        toolLoop tools script r log = (Except.ok r, log)) := by
  refine ⟨?_, toolLoop_ok_no_call, toolLoop_exit⟩
  intro tools fc f t msg hist h
  rw [chat_single_call tools fc t msg hist, h]
  rfl

/-- C6 witness: a scripted turn calling `record_unknown_question` once. -/
theorem C6_loop_termination_witness :
    lookupTool defaultTools "record_unknown_question" =
        some record_unknown_question ∧
    (Me.mk (some ()) defaultTools).chat "hi" []
        [ScriptEvent.reply
           ⟨[ResponsePart.functionCall
               ⟨"record_unknown_question", [("question", "Where?")]⟩]⟩,
         ScriptEvent.reply ⟨[ResponsePart.text "logged"]⟩] =
      ("logged", ⟨2, ["record_unknown_question"],
        [[("record_unknown_question",
           ⟨"success", "Question has been recorded for review."⟩)]]⟩) :=
  ⟨rfl,
   C6_loop_termination.1 defaultTools
     ⟨"record_unknown_question", [("question", "Where?")]⟩
     record_unknown_question "logged" "hi" [] rfl⟩

/-- C9: for every configured model, user message, history and scripted
remote behaviour, if the turn hits an exception anywhere in the remote
interaction (initial send, a follow-up send, or reading the final text),
`chat` returns the generic apology string instead of raising. -/
theorem C9_remote_failure (tools : Registry) (msg : String)
    (hist : List ChatTurn) (script : List ScriptEvent)
    (h : turnFails tools script = true) :
    ((Me.mk (some ()) tools).chat msg hist script).1 =
      "Sorry, I encountered an error. Please try again." := by
  unfold turnFails at h
  cases hc : chatCore tools script with
  | mk res log =>
    rw [hc] at h
    cases res with
    | error e => simp [Me.chat, hc, apologyMsg]
    | ok r =>
      simp only at h
      cases hr : responseText r with
      | ok t => rw [hr] at h; simp [Except.isOk, Except.toBool] at h
      | error e => simp [Me.chat, hc, hr, apologyMsg]

/-- C9 witness: a script whose initial send raises. -/
theorem C9_remote_failure_witness :
    turnFails defaultTools [ScriptEvent.raiseErr "network down"] = true ∧
    ((Me.mk (some ()) defaultTools).chat "hi" []
        [ScriptEvent.raiseErr "network down"]).1 =
      "Sorry, I encountered an error. Please try again." :=
  ⟨rfl,
   C9_remote_failure defaultTools "hi" [] [ScriptEvent.raiseErr "network down"]
     rfl⟩

/-! ## Helper lemmas about the suggestion generator -/

theorem suggestLoop_eq (maxS : Nat) :
    ∀ (kws acc : List String), acc.length + kws.length ≤ maxS →
      suggestLoop maxS kws acc = acc ++ kws.map questionFor := by
  intro kws
  induction kws with
  | nil => intro acc h; simp [suggestLoop]
  | cons k ks ih =>
    intro acc h
    simp only [suggestLoop]
    have hlen : (acc ++ [questionFor k]).length = acc.length + 1 := by simp
    simp only [List.length_cons] at h
    by_cases hb : maxS ≤ (acc ++ [questionFor k]).length
    · rw [if_pos hb]
      have hks : ks = [] := List.length_eq_zero.mp (by omega)
      subst hks
      simp
    · rw [if_neg hb]
      rw [ih (acc ++ [questionFor k]) (by omega)]
      simp

theorem genericPad_length (maxS : Nat) :
    ∀ (gs acc : List String),
      (genericPad maxS acc gs).length =
        max acc.length (min maxS (acc.length + gs.length)) := by
  intro gs
  induction gs with
  | nil => intro acc; simp only [genericPad, List.length_nil]; omega
  | cons g gs ih =>
    intro acc
    simp only [genericPad]
    by_cases h : acc.length < maxS
    · rw [if_pos h, ih]
      have hlen : (acc ++ [g]).length = acc.length + 1 := by simp
      rw [hlen]
      simp only [List.length_cons]
      omega
    · rw [if_neg h]
      simp only [List.length_cons]
      omega

theorem suggestionsFrom_length (kws : List String) (maxS : Nat)
    (h : kws.length ≤ maxS) :
    (suggestionsFrom kws maxS).length = min maxS (kws.length + 3) := by
  unfold suggestionsFrom
  rw [suggestLoop_eq maxS kws [] (by simpa using h), genericPad_length]
  simp only [List.nil_append, List.length_map, generic, List.length_cons,
    List.length_nil]
  omega

theorem extract_length (t : String) (n : Nat) :
    (_extract_keywords (some t) n).length = min n (candidateCount t) := by
  by_cases h : t = ""
  · subst h
    have h0 : candidateCount "" = 0 := rfl
    have h1 : _extract_keywords (some "") n = [] := rfl
    simp [h0, h1]
  · have h1 : _extract_keywords (some t) n =
        ((rankedItems t).take n).map Prod.fst := by
      simp [_extract_keywords, h]
    rw [h1]
    simp [rankedItems, candidateCount, List.length_insertionSort]

/-! ## Keys of the frequency table -/

theorem bump_keys (w : String) :
    ∀ (f : List (String × Nat)),
      (bump f w).map Prod.fst =
        if w ∈ f.map Prod.fst then f.map Prod.fst
        else f.map Prod.fst ++ [w]
  | [] => by simp [bump]
  | (k, v) :: rest => by
    by_cases h : k = w
    · subst h
      simp [bump]
    · simp only [bump, if_neg h, List.map_cons, bump_keys w rest,
        List.mem_cons]
      by_cases h2 : w ∈ rest.map Prod.fst
      · rw [if_pos h2, if_pos (Or.inr h2)]
      · have hcond : ¬(w = k ∨ w ∈ rest.map Prod.fst) := by
          rintro (rfl | hh)
          · exact h rfl
          · exact h2 hh
        rw [if_neg h2, if_neg hcond]
        simp

theorem bump_keys_nodup (w : String) (f : List (String × Nat))
    (h : (f.map Prod.fst).Nodup) : ((bump f w).map Prod.fst).Nodup := by
  rw [bump_keys]
  by_cases h2 : w ∈ f.map Prod.fst
  · rwa [if_pos h2]
  · rw [if_neg h2]
    simp [List.nodup_append, h, h2]

theorem mem_bump_keys (w x : String) (f : List (String × Nat))
    (h : x ∈ (bump f w).map Prod.fst) : x ∈ f.map Prod.fst ∨ x = w := by
  rw [bump_keys] at h
  by_cases h2 : w ∈ f.map Prod.fst
  · rw [if_pos h2] at h; exact Or.inl h
  · rw [if_neg h2] at h
    rcases List.mem_append.mp h with h3 | h3
    · exact Or.inl h3
    · simp only [List.mem_singleton] at h3
      exact Or.inr h3

theorem buildFreq_go_nodup :
    ∀ (ws : List String) (f : List (String × Nat)),
      (f.map Prod.fst).Nodup →
      ((ws.foldl (fun f w => if w ∈ _STOPWORDS then f else bump f w)
          f).map Prod.fst).Nodup
  | [], _, h => h
  | w :: ws, f, h => by
    simp only [List.foldl_cons]
    by_cases hs : w ∈ _STOPWORDS
    · rw [if_pos hs]; exact buildFreq_go_nodup ws f h
    · rw [if_neg hs]; exact buildFreq_go_nodup ws _ (bump_keys_nodup w f h)

/-- The keys of the frequency dictionary are distinct. -/
theorem buildFreq_nodup (ws : List String) :
    ((buildFreq ws).map Prod.fst).Nodup :=
  buildFreq_go_nodup ws [] (by simp)

theorem buildFreq_go_mem :
    ∀ (ws : List String) (f : List (String × Nat)) (x : String),
      x ∈ ((ws.foldl (fun f w => if w ∈ _STOPWORDS then f else bump f w)
          f).map Prod.fst) →
      x ∈ f.map Prod.fst ∨ (x ∈ ws ∧ x ∉ _STOPWORDS)
  | [], _, _, h => Or.inl h
  | w :: ws, f, x, h => by
    simp only [List.foldl_cons] at h
    by_cases hs : w ∈ _STOPWORDS
    · rw [if_pos hs] at h
      rcases buildFreq_go_mem ws f x h with h2 | h2
      · exact Or.inl h2
      · exact Or.inr ⟨List.mem_cons_of_mem _ h2.1, h2.2⟩
    · rw [if_neg hs] at h
      rcases buildFreq_go_mem ws (bump f w) x h with h2 | h2
      · rcases mem_bump_keys w x f h2 with h3 | h3
        · exact Or.inl h3
        · subst h3; exact Or.inr ⟨List.mem_cons_self _ _, hs⟩
      · exact Or.inr ⟨List.mem_cons_of_mem _ h2.1, h2.2⟩

/-- Every key of the frequency dictionary is a non-stopword token. -/
theorem buildFreq_mem (ws : List String) (x : String)
    (h : x ∈ (buildFreq ws).map Prod.fst) : x ∈ ws ∧ x ∉ _STOPWORDS := by
  rcases buildFreq_go_mem ws [] x h with h2 | h2
  · simp at h2
  · exact h2

theorem rankedItems_perm (text : String) :
    List.Perm (rankedItems text) (buildFreq (tokens text)) := by
  unfold rankedItems
  exact List.perm_insertionSort _ _

theorem rankedItems_keys_nodup (text : String) :
    ((rankedItems text).map Prod.fst).Nodup :=
  (((rankedItems_perm text).map Prod.fst).nodup_iff).mpr
    (buildFreq_nodup _)

/-! ## Shape of the tokens -/

theorem pyLower_lower_aux (m : Nat) (h1 : 65 ≤ m) (h2 : m ≤ 90) :
    97 ≤ (Char.ofNat (m + 32)).toNat ∧ (Char.ofNat (m + 32)).toNat ≤ 122 := by
  interval_cases m <;> exact ⟨by decide, by decide⟩

theorem pyLower_lower (c : Char) (h : isAsciiAlpha c = true) :
    isAsciiLower (pyLower c) = true := by
  simp only [isAsciiAlpha, isAsciiUpper, isAsciiLower, Bool.or_eq_true,
    Bool.and_eq_true, decide_eq_true_eq] at h ⊢
  unfold pyLower
  by_cases hu : 65 ≤ c.toNat ∧ c.toNat ≤ 90
  · have hcond : (decide (65 ≤ c.toNat) && decide (c.toNat ≤ 90)) = true := by
      simp only [Bool.and_eq_true, decide_eq_true_eq]
      exact hu
    rw [if_pos hcond]
    exact pyLower_lower_aux c.toNat hu.1 hu.2
  · have hcond : ¬((decide (65 ≤ c.toNat) && decide (c.toNat ≤ 90)) = true) := by
      simp only [Bool.and_eq_true, decide_eq_true_eq]
      exact hu
    rw [if_neg hcond]
    omega

/-- Every token is at least 4 characters long and consists of lowercase
ASCII letters only. -/
theorem tokens_shape (t w : String) (h : w ∈ tokens t) :
    4 ≤ w.length ∧ w.data.all isAsciiLower = true := by
  unfold tokens at h
  rcases List.mem_map.mp h with ⟨r, hr, hw⟩
  rcases List.mem_filter.mp hr with ⟨_, hpred⟩
  rw [Bool.and_eq_true, decide_eq_true_eq] at hpred
  subst hw
  constructor
  · show 4 ≤ (r.map pyLower).length
    simpa using hpred.1
  · show (r.map pyLower).all isAsciiLower = true
    rw [List.all_map]
    rw [List.all_eq_true] at hpred ⊢
    intro c hc
    exact pyLower_lower c (hpred.2 c hc)

/-! ## Claim theorems: the suggestion generator -/

/-- C1 counterexample: user message "rust" and response "java" have one
candidate keyword each, so candidates across both sources plus the three
generics reach 5, yet `generate_suggestions` with `max_suggestions = 5`
returns only 4 strings — the code draws keywords from a single source and
never pools the two. -/
theorem C1_counterexample :
    5 ≤ candidateCount "rust" + candidateCount "java" + 3 ∧
    (generate_suggestions "rust" "java" 5).length = 4 ∧
    (generate_suggestions "rust" "java" 5).length ≠ 5 := by
  refine ⟨by decide, by decide, by decide⟩

/-- C1 (amended): for every pair of texts and every `max_suggestions`,
`generate_suggestions` never returns more than `max_suggestions` strings,
and returns exactly `max_suggestions` whenever the candidate keywords of
the selected source (the user message when it has any, otherwise the
response text) plus the three generic prompts reach `max_suggestions`. -/
theorem C1_quota (u r : String) (n : Nat) :
    (generate_suggestions u r n).length ≤ n ∧
    (n ≤ (if candidateCount u = 0 then candidateCount r
          else candidateCount u) + 3 →
      (generate_suggestions u r n).length = n) := by
  have hu := extract_length u n
  have hr := extract_length r n
  unfold generate_suggestions
  by_cases hke : _extract_keywords (some u) n = []
  · rw [if_pos hke]
    rw [suggestionsFrom_length _ n (by omega)]
    have h0 : (_extract_keywords (some u) n).length = 0 := by simp [hke]
    refine ⟨by omega, ?_⟩
    intro hn
    by_cases hcu : candidateCount u = 0
    · rw [if_pos hcu] at hn; omega
    · rw [if_neg hcu] at hn; omega
  · rw [if_neg hke]
    rw [suggestionsFrom_length _ n (by omega)]
    have h0 : (_extract_keywords (some u) n).length ≠ 0 := by
      simpa [List.length_eq_zero] using hke
    refine ⟨by omega, ?_⟩
    intro hn
    by_cases hcu : candidateCount u = 0
    · omega
    · rw [if_neg hcu] at hn; omega

/-- C1 witness: one keyword in the user message and the three generics meet
a quota of 3 exactly. -/
theorem C1_quota_witness :
    3 ≤ (if candidateCount "rust" = 0 then candidateCount ""
         else candidateCount "rust") + 3 ∧
    (generate_suggestions "rust" "" 3).length = 3 :=
  ⟨by decide, (C1_quota "rust" "" 3).2 (by decide)⟩

/-- C7: keyword extraction over "that this from about" (all stopwords)
yields the empty list; and in general the response text feeds the
suggestion pipeline exactly when the user message yields no keywords. -/
theorem C7_stopword_fallback :
    _extract_keywords (some "that this from about") 3 = [] ∧
    (∀ (u r : String) (n : Nat),
      (_extract_keywords (some u) n = [] →
        generate_suggestions u r n =
          suggestionsFrom (_extract_keywords (some r) n) n) ∧
      (_extract_keywords (some u) n ≠ [] →
        generate_suggestions u r n =
          suggestionsFrom (_extract_keywords (some u) n) n)) := by
  refine ⟨by decide, ?_⟩
  intro u r n
  constructor
  · intro h; unfold generate_suggestions; rw [if_pos h]
  · intro h; unfold generate_suggestions; rw [if_neg h]

/-- C7 witness: the all-stopword user message makes the fallback fire on a
concrete pair of texts. -/
theorem C7_stopword_fallback_witness :
    _extract_keywords (some "that this from about") 3 = [] ∧
    generate_suggestions "that this from about" "Python rocks" 3 =
      suggestionsFrom (_extract_keywords (some "Python rocks") 3) 3 :=
  ⟨by decide,
   (C7_stopword_fallback.2 "that this from about" "Python rocks" 3).1
     (by decide)⟩

/-- C8 counterexample: with `max_suggestions = 0` the returned list is
empty even though both texts are non-empty and the generic list is
non-empty, refuting "non-empty for every max_suggestions". -/
theorem C8_counterexample :
    generate_suggestions "hello world" "example" 0 = [] := by decide

/-- C8 (amended): for every pair of input texts, the list returned by
`generate_suggestions` is non-empty whenever `max_suggestions ≥ 1` (the
fixed generic prompt list being non-empty by construction). -/
theorem C8_nonempty (u r : String) (n : Nat) (h : 1 ≤ n) :
    generate_suggestions u r n ≠ [] := by
  have hu := extract_length u n
  have hr := extract_length r n
  intro hnil
  have hlen : (generate_suggestions u r n).length = 0 := by simp [hnil]
  unfold generate_suggestions at hlen
  by_cases hke : _extract_keywords (some u) n = []
  · rw [if_pos hke, suggestionsFrom_length _ n (by omega)] at hlen
    omega
  · rw [if_neg hke, suggestionsFrom_length _ n (by omega)] at hlen
    omega

/-- C8 witness: the default quota of 3 on empty texts. -/
theorem C8_nonempty_witness :
    1 ≤ 3 ∧ generate_suggestions "" "" 3 ≠ [] :=
  ⟨by decide, C8_nonempty "" "" 3 (by decide)⟩

/-- C2: keyword ranking orders the table by descending frequency with
ascending alphabetical order breaking ties (strictly, since table keys are
distinct); in particular, for the user message "Rust rust Go go" with the
default quota of 3, `generate_suggestions` returns exactly the question
about "rust" followed by the first two generic prompts, whatever the
response text ("Go"/"go" being dropped by the 4-letter minimum). -/
theorem C2_rank_tiebreak :
    (∀ response_text : String,
      generate_suggestions "Rust rust Go go" response_text 3 =
        ["Can you tell me more about rust?",
         "How did you achieve that?",
         "What tools or technologies were used?"]) ∧
    (∀ text : String,
      (rankedItems text).Pairwise
        (fun a b => b.2 < a.2 ∨ (a.2 = b.2 ∧ a.1 < b.1))) := by
  constructor
  · intro r
    rfl
  · intro text
    have hsorted : (rankedItems text).Pairwise rankRel :=
      List.sorted_insertionSort rankRel _
    have hne : (rankedItems text).Pairwise (fun a b => a.1 ≠ b.1) :=
      List.pairwise_map.mp (rankedItems_keys_nodup text)
    refine List.Pairwise.imp₂ (fun a b h1 h2 => ?_) hsorted hne
    unfold rankRel at h1
    rcases h1 with h1 | ⟨he, hs⟩
    · exact Or.inl h1
    · exact Or.inr ⟨he, lt_of_le_of_ne hs h2⟩

/-- C10: `_extract_keywords` returns at most `top_n` pairwise-distinct
keywords, each a lowercased alphabetic token of length at least 4 that
occurs (case-insensitively) as a token of the input text and is not a
stopword; a `None` or empty input text yields the empty list. -/
theorem C10_extract_postcondition (text : String) (n : Nat) :
    (_extract_keywords (some text) n).length ≤ n ∧
    (_extract_keywords (some text) n).Nodup ∧
    (∀ w ∈ _extract_keywords (some text) n,
      w ∈ tokens text ∧ w ∉ _STOPWORDS ∧ 4 ≤ w.length ∧
      w.data.all isAsciiLower = true) ∧
    _extract_keywords none n = [] ∧
    _extract_keywords (some "") n = [] := by
  refine ⟨?_, ?_, ?_, rfl, rfl⟩
  · rw [extract_length]; omega
  · by_cases h : text = ""
    · subst h
      have h1 : _extract_keywords (some "") n = [] := rfl
      rw [h1]
      exact List.nodup_nil
    · have h1 : _extract_keywords (some text) n =
          ((rankedItems text).take n).map Prod.fst := by
        simp [_extract_keywords, h]
      rw [h1]
      have hsub : List.Sublist (((rankedItems text).take n).map Prod.fst)
          ((rankedItems text).map Prod.fst) := (List.take_sublist _ _).map _
      exact (rankedItems_keys_nodup text).sublist hsub
  · intro w hw
    by_cases h : text = ""
    · subst h
      have h1 : _extract_keywords (some "") n = [] := rfl
      rw [h1] at hw
      exact absurd hw (List.not_mem_nil w)
    · have h1 : _extract_keywords (some text) n =
          ((rankedItems text).take n).map Prod.fst := by
        simp [_extract_keywords, h]
      rw [h1] at hw
      rcases List.mem_map.mp hw with ⟨p, hp, hpw⟩
      have hw2 : w ∈ (rankedItems text).map Prod.fst := by
        rw [← hpw]
        exact List.mem_map_of_mem _ (List.mem_of_mem_take hp)
      have hw3 : w ∈ (buildFreq (tokens text)).map Prod.fst :=
        ((rankedItems_perm text).map Prod.fst).mem_iff.mp hw2
      have hmem := buildFreq_mem (tokens text) w hw3
      have hshape := tokens_shape text w hmem.1
      exact ⟨hmem.1, hmem.2, hshape.1, hshape.2⟩

/-- C10 witness: the postcondition instantiated on a concrete text and a
concrete member of the result. -/
theorem C10_extract_postcondition_witness :
    "alpha" ∈ _extract_keywords (some "alpha beta alpha") 2 ∧
    ("alpha" ∈ tokens "alpha beta alpha" ∧ "alpha" ∉ _STOPWORDS ∧
      4 ≤ "alpha".length ∧ "alpha".data.all isAsciiLower = true) :=
  ⟨by decide,
   (C10_extract_postcondition "alpha beta alpha" 2).2.2.1 "alpha" (by decide)⟩

end AskHire
